import Mathlib

/-!
# xplane-udp-bridge — client-side protocol verification

Shallow embedding of the dataref request/response handling of the
xplane-udp-bridge clients:

* the Go client (`client/go/main/udp.go`, `client/go/main/dataref.go`):
  `NewUdpClient`, `UdpClient.SendAndRecv`, `NewDataRefReader`,
  `DataRefReader.ReadAsFloat`, `DataRefReader.Read`;
* the Flutter/Dart client (`client/flutters/lib/viewmodel/dataref.dart`):
  `DataRefViewModel.readFromUDPServer` and `DataRefViewModel.parse`;
* a codec modelled from the specification (`decodeResponse`) for the
  round-trip property, since the typed codec itself is not among the
  client sources.

Effectful boundaries (socket operations, the dial outcome, the arriving
datagram) are passed in as explicit parameters; Go panics and Dart thrown
errors are modelled as `Except` error values.  Floating-point values are
modelled as exact rationals: every concrete value appearing in a theorem
below is exactly representable in binary32, so the 32-bit narrowing
performed by `strconv.ParseFloat(value, 32)` is the identity on them.
-/

/-- Digits-to-number accumulator used by the numeric parsers. -/
def digitsToNat (l : List Char) : Nat :=
  l.foldl (fun a c => a * 10 + (c.toNat - 48)) 0

/-- Helper for `splitOnChar`: accumulates the current field (reversed). -/
def splitOnCharAux (sep : Char) : List Char → List Char → List (List Char)
  | [], acc => [acc.reverse]
  | c :: rest, acc =>
    if c = sep then acc.reverse :: splitOnCharAux sep rest []
    else splitOnCharAux sep rest (c :: acc)

/-- Splitting a string at every occurrence of a separator character, with
the semantics shared by Go `strings.Split(s, sep)` and Dart
`s.split(sep)` for a one-character separator: `""` yields `[""]`, and
adjacent or trailing separators yield empty fields.  (Structurally
recursive so that it evaluates inside the kernel.) -/
def splitOnChar (sep : Char) (s : String) : List String :=
  (splitOnCharAux sep s.toList []).map (fun cs => String.mk cs)

/-- Splits an optional leading sign off a character list, returning the
sign as `1` or `-1` together with the remainder. -/
def splitSign : List Char → Int × List Char
  | '+' :: rest => (1, rest)
  | '-' :: rest => (-1, rest)
  | l => (1, l)

/-- Models the decimal forms accepted by Go `strconv.ParseFloat` (and the
double-precision parse the spec prescribes): optional sign, digits with an
optional fractional part (at least one digit overall), optional decimal
exponent.  `Inf`/`NaN`/hex-float forms are not modelled — they never occur
in the protocol.  The result is the exact rational denoted by the text. -/
def parseGoFloat (s : String) : Option ℚ :=
  let (sign, r0) := splitSign s.toList
  let ip := r0.takeWhile (·.isDigit)
  let r1 := r0.dropWhile (·.isDigit)
  let (fp, r2) : List Char × List Char :=
    match r1 with
    | '.' :: rest => (rest.takeWhile (·.isDigit), rest.dropWhile (·.isDigit))
    | _ => ([], r1)
  if ip.isEmpty && fp.isEmpty then none
  else
    let expPart : Option (Int × List Char) :=
      match r2 with
      | 'e' :: rest | 'E' :: rest =>
        let (es, rest2) : Int × List Char := splitSign rest
        let ed := rest2.takeWhile (·.isDigit)
        let r3 := rest2.dropWhile (·.isDigit)
        if ed.isEmpty then none else some (es * (digitsToNat ed : Int), r3)
      | _ => some (0, r2)
    match expPart with
    | none => none
    | some (ex, r3) =>
      if r3 ≠ [] then none
      else
        let mant : Int := sign * (digitsToNat (ip ++ fp) : Int)
        let e10 : Int := ex - fp.length
        if e10 ≥ 0 then some (mkRat (mant * Int.ofNat (10 ^ e10.toNat)) 1)
        else some (mkRat mant (10 ^ (-e10).toNat))

/-- Models Go `strconv.ParseInt(s, 10, 64)` on its decimal grammar:
optional sign followed by at least one digit (64-bit range checks are not
modelled; no protocol value in this development approaches them). -/
def parseGoInt (s : String) : Option Int :=
  let (sign, r0) := splitSign s.toList
  if r0.isEmpty || !r0.all (·.isDigit) then none
  else some (sign * (digitsToNat r0 : Int))

/-- One dotted-quad field of an IPv4 literal, per Go `net.ParseIP`:
1–3 decimal digits, no leading zero, value ≤ 255. -/
def parseIPv4Field (s : String) : Option Nat :=
  let cs := s.toList
  if cs.isEmpty || !cs.all (·.isDigit) then none
  else if 1 < cs.length && cs.head? == some '0' then none
  else if cs.length ≤ 3 && digitsToNat cs ≤ 255 then some (digitsToNat cs)
  else none

/-- Models Go `net.ParseIP` on IPv4 dotted-quad literals; `none` models the
`nil` result for anything else.  (IPv6 literals are not modelled: every
host string in this development is an IPv4 literal or an invalid name.) -/
def parseIP (s : String) : Option (Nat × Nat × Nat × Nat) :=
  match (splitOnChar '.' s).mapM parseIPv4Field with
  | some [a, b, c, d] => some (a, b, c, d)
  | _ => none

/-- `net.UDPAddr` as built by `NewUdpClient`: `IP` is the result of
`net.ParseIP(host)` (`none` models a `nil` IP). -/
structure UDPAddr where
  ip : Option (Nat × Nat × Nat × Nat)
  port : Int
deriving DecidableEq

/-- `UdpClient` from `client/go/main/udp.go`.  The `connection` handle is an
OS resource; its behaviour enters the model through the outcome parameters
of `UdpClient.SendAndRecv`. -/
structure UdpClient where
  serverAddr : UDPAddr
  timeoutSecs : Int
deriving DecidableEq

/-- Outcome of the `net.DialUDP` call inside `NewUdpClient`, an external
event of the operating system. -/
inductive DialResult
  | ok
  | err
deriving DecidableEq

/-- `NewUdpClient(host, port, timeoutSecs)` from `client/go/main/udp.go`:
builds `serverAddr` from `net.ParseIP(host)` (unchecked — a failed parse
leaves a `nil` IP in the address) and returns `nil` exactly when
`net.DialUDP` fails. -/
def NewUdpClient (host : String) (port timeoutSecs : Int) (dial : DialResult) :
    Option UdpClient :=
  match dial with
  | .err => none
  | .ok => some { serverAddr := { ip := parseIP host, port := port }, timeoutSecs := timeoutSecs }

/-- `UdpClient.SendAndRecv` from `client/go/main/udp.go`.  `sendOk` and
`deadlineOk` are the outcomes of `connection.Write` and `SetReadDeadline`;
`recv` is the datagram delivered by `ReadFromUDP` (`none` models a read
error or timeout).  The read uses a 2048-byte buffer, so the kernel
delivers at most the first 2048 bytes of the datagram (UDP truncation) and
the function returns `buffer[:size]`. -/
def UdpClient.SendAndRecv (_client : UdpClient) (sendOk deadlineOk : Bool)
    (recv : Option (List Nat)) : Option (List Nat) :=
  if !sendOk then none
  else if !deadlineOk then none
  else
    match recv with
    | none => none
    | some payload => some (payload.take 2048)

/-- Decidable equality for `Except`, used to evaluate the models on
concrete inputs. -/
instance {ε : Type u} {α : Type v} [DecidableEq ε] [DecidableEq α] :
    DecidableEq (Except ε α) :=
  fun a b =>
    match a, b with
    | .error e, .error f =>
      if h : e = f then .isTrue (congrArg Except.error h)
      else .isFalse (fun hc => h (by injection hc))
    | .error _, .ok _ => .isFalse (fun hc => Except.noConfusion hc)
    | .ok _, .error _ => .isFalse (fun hc => Except.noConfusion hc)
    | .ok x, .ok y =>
      if h : x = y then .isTrue (congrArg Except.ok h)
      else .isFalse (fun hc => h (by injection hc))

/-- Faults a Go client function can hit at runtime (modelled panics). -/
inductive GoFault
  | nilPointerDereference
  | indexOutOfRange
deriving DecidableEq

/-- `DataRefReader` from `client/go/main/dataref.go`; the `client` field is
a `*UdpClient`, so `none` models a `nil` pointer. -/
structure DataRefReader where
  client : Option UdpClient
deriving DecidableEq

/-- `NewDataRefReader(client)` from `client/go/main/dataref.go`: wraps the
pointer with no nil check. -/
def NewDataRefReader (client : Option UdpClient) : DataRefReader :=
  { client := client }

/-- `InvalidDataRefFloatValue = -666.0` from `client/go/main/dataref.go`. -/
def InvalidDataRefFloatValue : ℚ := -666

/-- `DataRefReader.ReadAsFloat(dataref)` from `client/go/main/dataref.go`.
`response` is the value returned by `client.SendAndRecv` (meaningful only
when the client pointer is non-nil; a `nil` pointer faults first, at the
method's dereference of `reader.client`).  The body is split on `"|"`,
index 2 is taken (a panic when fewer than 3 fields), and the sentinel
`InvalidDataRefFloatValue` is returned when there is no response or the
field does not parse as a float. -/
def DataRefReader.ReadAsFloat (reader : DataRefReader) (response : Option String) :
    Except GoFault ℚ :=
  match reader.client with
  | none => .error .nilPointerDereference
  | some _ =>
    match response with
    | none => .ok InvalidDataRefFloatValue
    | some body =>
      match (splitOnChar '|' body).get? 2 with
      | none => .error .indexOutOfRange
      | some value =>
        match parseGoFloat value with
        | none => .ok InvalidDataRefFloatValue
        | some f => .ok f

/-- `DataRefReader.Read(dataref, dataType)` from `client/go/main/dataref.go`:
returns `""` when there is no response, otherwise the field at index 2 of
the `"|"`-split body (a panic when fewer than 3 fields). -/
def DataRefReader.Read (reader : DataRefReader) (response : Option String) :
    Except GoFault String :=
  match reader.client with
  | none => .error .nilPointerDereference
  | some _ =>
    match response with
    | none => .ok ""
    | some body =>
      match (splitOnChar '|' body).get? 2 with
      | none => .error .indexOutOfRange
      | some value => .ok value

/-- `DataRef` from `client/flutters/lib/viewmodel/dataref.dart`: a dataref
name, its declared wire type, and a human-readable label. -/
structure DataRef where
  name : String
  datatype : String
  description : String
deriving DecidableEq

/-- The fixed dataref list initialising `DataRefViewModel.datarefs` in
`client/flutters/lib/viewmodel/dataref.dart` (a `final` field that is
never mutated, so modelled as a constant). -/
def datarefs : List DataRef :=
  [⟨"sim/cockpit2/controls/parking_brake_ratio", "float", "Parking Brake Ratio"⟩,
   ⟨"sim/cockpit2/engine/actuators/throttle_ratio", "float", "Throttle Ratio"⟩,
   ⟨"sim/cockpit2/engine/actuators/eng_master", "[int]", "Engine Master"⟩,
   ⟨"sim/cockpit2/electrical/battery_on", "[int]", "Battery On"⟩]

/-- Errors the Dart view model can throw at runtime: `RangeError` from a
list index out of bounds, `StateError` from `Iterable.firstWhere` finding
no element. -/
inductive DartFault
  | rangeError
  | stateError
deriving DecidableEq

/-- The mutable state of `DataRefViewModel`: its `requestIds` map
(key: requestId, value: dataref name), modelled as an association list
with overwrite-on-insert map semantics. -/
structure DataRefViewModel where
  requestIds : List (String × String)
deriving DecidableEq

/-- Dart `Map` assignment `m[k] = v`: inserts or overwrites. -/
def mapInsert (m : List (String × String)) (k v : String) : List (String × String) :=
  (k, v) :: m.filter (fun p => p.1 ≠ k)

/-- `DataRefViewModel.readFromUDPServer` from
`client/flutters/lib/viewmodel/dataref.dart`: for each dataref in order it
generates a requestId, builds the request
`'$requestId|dataref|read|${dataref.datatype}|${dataref.name}'`, records
`requestIds[requestId] = dataref.name`, and sends the request.  The
generated UUIDs are an external input here, passed as `rids` (one per
dataref, in order); the result is the new view-model state together with
the datagrams sent. -/
def DataRefViewModel.readFromUDPServer (vm : DataRefViewModel) (rids : List String) :
    DataRefViewModel × List String :=
  (rids.zip datarefs).foldl
    (fun acc p =>
      let requestId := p.1
      let dataref := p.2
      let data := requestId ++ "|dataref|read|" ++ dataref.datatype ++ "|" ++ dataref.name
      ({ requestIds := mapInsert acc.1.requestIds requestId dataref.name }, acc.2 ++ [data]))
    (vm, [])

/-- The request datagram built inside `readFromUDPServer` for one dataref:
`'$requestId|dataref|read|${dataref.datatype}|${dataref.name}'`. -/
def readRequestData (requestId : String) (dataref : DataRef) : String :=
  requestId ++ "|dataref|read|" ++ dataref.datatype ++ "|" ++ dataref.name

/-- `DataRefViewModel.parse` from `client/flutters/lib/viewmodel/dataref.dart`:

```dart
final parts = message.split('|');
final requestId = parts[0];
final value = parts[3];
final datarefName = requestIds[requestId];
final dataref = datarefs.firstWhere((element) => element.name == datarefName);
return '${dataref.description}: $value';
```

`parts[3]` throws `RangeError` when the message has fewer than four
`|`-separated fields; a missing map entry makes `datarefName` null, and
`firstWhere` then throws `StateError`.  Both are modelled as `Except`
errors. -/
def DataRefViewModel.parse (vm : DataRefViewModel) (message : String) :
    Except DartFault String :=
  let parts := splitOnChar '|' message
  match parts.get? 0, parts.get? 3 with
  | some requestId, some value =>
    let datarefName := (vm.requestIds.find? (fun p => p.1 == requestId)).map (fun p => p.2)
    match datarefs.find? (fun e => some e.name == datarefName) with
    | some dataref => .ok (dataref.description ++ ": " ++ value)
    | none => .error .stateError
  | _, _ => .error .rangeError

/-- The view-model state after one `parse` call, paired with its result:
the source's `parse` reads `requestIds` but contains no removal or other
mutation of it, so the state after the call is the state before it. -/
def DataRefViewModel.parseStep (vm : DataRefViewModel) (message : String) :
    Except DartFault String × DataRefViewModel :=
  (vm.parse message, vm)

/-- Modelled from the spec: the wire-type enumeration
{`int`, `float`, `[int]`, `[float]`} of §3 — the typed codec is not among
the sources under `src/`. -/
inductive DataRefType
  | int
  | float
  | intArray
  | floatArray
deriving DecidableEq

/-- Modelled from the spec: the wire tag of each type. -/
def DataRefType.tag : DataRefType → String
  | .int => "int"
  | .float => "float"
  | .intArray => "[int]"
  | .floatArray => "[float]"

/-- Modelled from the spec: recognising a type tag; anything outside the
enumeration is unknown. -/
def parseTypeTag (s : String) : Option DataRefType :=
  if s == "int" then some .int
  else if s == "float" then some .float
  else if s == "[int]" then some .intArray
  else if s == "[float]" then some .floatArray
  else none

/-- Modelled from the spec: the `DataRefValue` tagged union of §3
(scalars, sequences, or invalid).  Floats are exact rationals here; the
32-bit narrowing is the identity on every value appearing below. -/
inductive DataRefValue
  | intV (i : Int)
  | floatV (q : ℚ)
  | intArrayV (l : List Int)
  | floatArrayV (l : List ℚ)
  | invalid
deriving DecidableEq

/-- Modelled from the spec: the `CodecError` taxonomy of §4.2/§7. -/
inductive CodecError
  | malformed
  | unknownType
  | valueParse
deriving DecidableEq

/-- Modelled from the spec: type-directed decoding of the value segment —
decimal integer for `int`, decimal float for `float`, comma-separated
lists for the array types, all-or-nothing on array elements. -/
def decodeValue : DataRefType → String → Option DataRefValue
  | .int, s => (parseGoInt s).map DataRefValue.intV
  | .float, s => (parseGoFloat s).map DataRefValue.floatV
  | .intArray, s => ((splitOnChar ',' s).mapM parseGoInt).map DataRefValue.intArrayV
  | .floatArray, s => ((splitOnChar ',' s).mapM parseGoFloat).map DataRefValue.floatArrayV

/-- Modelled from the spec: `decodeResponse` of §4.2 — the typed response
decoder is not among the sources under `src/` (the spec describes it for
the protocol core).  Splits on `|`; fewer than five fields is
`malformed`; an unrecognised type tag is `unknownType`; a value segment
that fails to parse under the declared type is `valueParse`; otherwise
the requestId, type, and typed value are returned. -/
def decodeResponse (s : String) : Except CodecError (String × DataRefType × DataRefValue) :=
  match splitOnChar '|' s with
  | requestId :: _ :: _ :: ty :: value :: _ =>
    match parseTypeTag ty with
    | none => .error .unknownType
    | some t =>
      match decodeValue t value with
      | none => .error .valueParse
      | some v => .ok (requestId, t, v)
  | _ => .error .malformed

/-- C1 counterexample: for the spec's own five-field response
`req1|dataref|response|float|0.5` (with `req1` registered for the
parking-brake dataref), the Dart decoding step `parse` renders the fourth
field `float` — the type tag — as the value, not the fifth field `0.5`. -/
theorem c1_fifth_field_counterexample :
    DataRefViewModel.parse ⟨[("req1", "sim/cockpit2/controls/parking_brake_ratio")]⟩
        "req1|dataref|response|float|0.5" = .ok "Parking Brake Ratio: float" ∧
    DataRefViewModel.parse ⟨[("req1", "sim/cockpit2/controls/parking_brake_ratio")]⟩
        "req1|dataref|response|float|0.5" ≠ .ok "Parking Brake Ratio: 0.5" := by
  decide

/-- C1 (amended): the response decoding step returns the fourth
`|`-separated field (`parts[3]`) as the value of the read — under the
five-field response layout that is the type tag, not the value segment.
Whenever the message has a field at index 3 and the requestId at index 0
resolves through `requestIds` to a dataref `d`, `parse` returns
`d.description ++ ": " ++ parts[3]`. -/
theorem c1_value_is_fourth_field (vm : DataRefViewModel) (message requestId value : String)
    (d : DataRef)
    (h0 : (splitOnChar '|' message).get? 0 = some requestId)
    (h3 : (splitOnChar '|' message).get? 3 = some value)
    (hd : datarefs.find?
        (fun e => some e.name ==
          ((vm.requestIds.find? (fun p => p.1 == requestId)).map (fun p => p.2))) = some d) :
    vm.parse message = .ok (d.description ++ ": " ++ value) := by
  unfold DataRefViewModel.parse
  simp only [h0, h3, hd]

/-- C1 witness: the amended statement evaluated on the spec's end-to-end
message, with `req1` registered for the parking-brake dataref. -/
theorem c1_value_is_fourth_field_witness :
    DataRefViewModel.parse ⟨[("req1", "sim/cockpit2/controls/parking_brake_ratio")]⟩
        "req1|dataref|response|float|0.5" = .ok ("Parking Brake Ratio" ++ ": " ++ "float") :=
  c1_value_is_fourth_field ⟨[("req1", "sim/cockpit2/controls/parking_brake_ratio")]⟩
    "req1|dataref|response|float|0.5" "req1" "float"
    ⟨"sim/cockpit2/controls/parking_brake_ratio", "float", "Parking Brake Ratio"⟩
    (by decide) (by decide) (by decide)

/-- C2 counterexample: a failed read (no response) returns `-666`, and a
response whose value field is the legitimate float text `-666.0` returns
the very same `-666`: the failure signal is a valid-looking sentinel from
the same numeric family, not a distinguishable "no value" result. -/
theorem c2_sentinel_counterexample :
    DataRefReader.ReadAsFloat (NewDataRefReader (NewUdpClient "127.0.0.1" 49000 3 .ok))
        none = .ok (-666 : ℚ) ∧
    DataRefReader.ReadAsFloat (NewDataRefReader (NewUdpClient "127.0.0.1" 49000 3 .ok))
        (some "dataref|response|-666.0") = .ok (-666 : ℚ) := by
  decide

/-- C2 (amended): the Go float read signals every failure (no response, or
a value field that does not parse as a float) by returning the in-band
sentinel `InvalidDataRefFloatValue = -666.0`, a member of the same numeric
family as the data; the generic `Read` signals failure with the empty
string.  Neither is an out-of-band "no value" result. -/
theorem c2_failure_returns_sentinel (c : UdpClient) (body value : String)
    (h2 : (splitOnChar '|' body).get? 2 = some value)
    (hp : parseGoFloat value = none) :
    DataRefReader.ReadAsFloat (NewDataRefReader (some c)) none = .ok InvalidDataRefFloatValue ∧
    DataRefReader.ReadAsFloat (NewDataRefReader (some c)) (some body)
        = .ok InvalidDataRefFloatValue ∧
    DataRefReader.Read (NewDataRefReader (some c)) none = .ok "" := by
  refine ⟨rfl, ?_, rfl⟩
  unfold DataRefReader.ReadAsFloat NewDataRefReader
  simp only [h2, hp]

/-- C2 witness: the amended statement evaluated on a concrete client and
the unparsable value field `abc`. -/
theorem c2_failure_returns_sentinel_witness :
    DataRefReader.ReadAsFloat (NewDataRefReader (some ⟨⟨some (127, 0, 0, 1), 49000⟩, 3⟩))
        none = .ok InvalidDataRefFloatValue ∧
    DataRefReader.ReadAsFloat (NewDataRefReader (some ⟨⟨some (127, 0, 0, 1), 49000⟩, 3⟩))
        (some "dataref|response|abc") = .ok InvalidDataRefFloatValue ∧
    DataRefReader.Read (NewDataRefReader (some ⟨⟨some (127, 0, 0, 1), 49000⟩, 3⟩))
        none = .ok "" :=
  c2_failure_returns_sentinel ⟨⟨some (127, 0, 0, 1), 49000⟩, 3⟩ "dataref|response|abc" "abc"
    (by decide) (by decide)

/-- C3 counterexample: after submitting the four reads (registering
`req1` for the parking brake) and successfully resolving the response for
`req1`, the correlation entry for `req1` is still present and the very
same duplicate response is still completable — `parse` never removes the
PendingRequest entry. -/
theorem c3_entry_retained_counterexample :
    (DataRefViewModel.parseStep
        (DataRefViewModel.readFromUDPServer ⟨[]⟩ ["req1", "req2", "req3", "req4"]).1
        "req1|dataref|response|float|0.5").1 = .ok "Parking Brake Ratio: float" ∧
    (DataRefViewModel.parseStep
        (DataRefViewModel.readFromUDPServer ⟨[]⟩ ["req1", "req2", "req3", "req4"]).1
        "req1|dataref|response|float|0.5").2.requestIds.find? (fun p => p.1 == "req1")
      = some ("req1", "sim/cockpit2/controls/parking_brake_ratio") ∧
    ((DataRefViewModel.parseStep
        (DataRefViewModel.readFromUDPServer ⟨[]⟩ ["req1", "req2", "req3", "req4"]).1
        "req1|dataref|response|float|0.5").2.parse "req1|dataref|response|float|0.5")
      = .ok "Parking Brake Ratio: float" := by
  decide

/-- C3 (amended): when the matching response for an in-flight request is
resolved, the corresponding correlation entry is NOT removed: the state
after `parse` equals the state before it, so the RequestId stays
registered and a duplicate response for it resolves again to the same
result. -/
theorem c3_entry_persists (vm : DataRefViewModel) (message result : String)
    (h : vm.parse message = .ok result) :
    (vm.parseStep message).2 = vm ∧
    (vm.parseStep message).2.parse message = .ok result := by
  exact ⟨rfl, h⟩

/-- C3 witness: the amended statement evaluated on the resolved `req1`
response. -/
theorem c3_entry_persists_witness :
    (DataRefViewModel.parseStep ⟨[("req1", "sim/cockpit2/controls/parking_brake_ratio")]⟩
        "req1|dataref|response|float|0.5").2
      = ⟨[("req1", "sim/cockpit2/controls/parking_brake_ratio")]⟩ ∧
    (DataRefViewModel.parseStep ⟨[("req1", "sim/cockpit2/controls/parking_brake_ratio")]⟩
        "req1|dataref|response|float|0.5").2.parse "req1|dataref|response|float|0.5"
      = .ok "Parking Brake Ratio: float" :=
  c3_entry_persists ⟨[("req1", "sim/cockpit2/controls/parking_brake_ratio")]⟩
    "req1|dataref|response|float|0.5" "Parking Brake Ratio: float" (by decide)

/-- C4 code evaluation: decoding does not return a typed `Malformed`
failure on short inputs — the Go `Read` hits an index-out-of-range panic
on a two-field datagram, the Dart `parse` throws `RangeError` on a
three-field datagram, and a four-field datagram (still fewer than five
fields) is happily decoded by `Read` instead of being rejected. -/
theorem c4_short_input_faults :
    DataRefReader.Read (NewDataRefReader (NewUdpClient "127.0.0.1" 49000 3 .ok))
        (some "dataref|response") = .error .indexOutOfRange ∧
    DataRefViewModel.parse ⟨[]⟩ "a|b|c" = .error .rangeError ∧
    DataRefReader.Read (NewDataRefReader (NewUdpClient "127.0.0.1" 49000 3 .ok))
        (some "a|b|c|d") = .ok "c" := by
  decide

/-- C5 code evaluation: a decoded response whose RequestId is unknown to
the correlator does not make `parse` return false/discard — `parse`
throws an unhandled `StateError` (from `firstWhere` over `datarefs` with
a null name), both on an empty map and on a map holding an unrelated
entry. -/
theorem c5_unknown_requestid_faults :
    DataRefViewModel.parse ⟨[]⟩ "deadbeef|dataref|response|float|0.5" = .error .stateError ∧
    DataRefViewModel.parse ⟨[("req1", "sim/cockpit2/controls/parking_brake_ratio")]⟩
        "unknown|dataref|response|float|0.5" = .error .stateError := by
  decide

/-- C6 counterexample: `not-an-ip` resolves to no address
(`parseIP` = `nil`), yet `NewUdpClient` still returns a client (with a
nil IP in its server address) when the dial succeeds — opening does not
fail with a typed `AddressInvalid` error on an unresolvable host. -/
theorem c6_invalid_host_counterexample :
    parseIP "not-an-ip" = none ∧
    NewUdpClient "not-an-ip" 49000 3 .ok = some ⟨⟨none, 49000⟩, 3⟩ := by
  decide

/-- C6 (amended): `NewUdpClient` performs no address validation and
returns no typed error: it returns a client exactly when `net.DialUDP`
succeeds — carrying whatever `net.ParseIP(host)` produced, `nil`
included — and signals dial failure by returning `nil`. -/
theorem c6_client_iff_dial_succeeds (host : String) (port timeoutSecs : Int) :
    NewUdpClient host port timeoutSecs .ok
      = some ⟨⟨parseIP host, port⟩, timeoutSecs⟩ ∧
    NewUdpClient host port timeoutSecs .err = none :=
  ⟨rfl, rfl⟩

/-- C7: the request encoding is the deterministic `|`-join
`<requestId>|dataref|read|<type>|<name>`: the encoder equals that
concatenation for every input, equal inputs give equal wire text, and on
the spec's end-to-end example the message splits back into exactly those
five fields and is pure ASCII. -/
theorem c7_request_encoding :
    (∀ (requestId : String) (d : DataRef),
      readRequestData requestId d
        = requestId ++ "|dataref|read|" ++ d.datatype ++ "|" ++ d.name) ∧
    (∀ (r1 r2 : String) (d1 d2 : DataRef), r1 = r2 → d1 = d2 →
      readRequestData r1 d1 = readRequestData r2 d2) ∧
    splitOnChar '|' (readRequestData "req1"
        ⟨"sim/cockpit2/controls/parking_brake_ratio", "float", "Parking Brake Ratio"⟩)
      = ["req1", "dataref", "read", "float", "sim/cockpit2/controls/parking_brake_ratio"] ∧
    (readRequestData "req1"
        ⟨"sim/cockpit2/controls/parking_brake_ratio", "float", "Parking Brake Ratio"⟩).toList.all
        (fun ch => ch.toNat < 128) = true := by
  refine ⟨fun requestId d => rfl, fun r1 r2 d1 d2 h1 h2 => by rw [h1, h2], by decide, by decide⟩

/-- C7 witness: the format equality and determinism instantiated on the
spec's end-to-end request. -/
theorem c7_request_encoding_witness :
    readRequestData "req1"
        ⟨"sim/cockpit2/controls/parking_brake_ratio", "float", "Parking Brake Ratio"⟩
      = "req1" ++ "|dataref|read|" ++ "float" ++ "|"
          ++ "sim/cockpit2/controls/parking_brake_ratio" :=
  c7_request_encoding.1 "req1"
    ⟨"sim/cockpit2/controls/parking_brake_ratio", "float", "Parking Brake Ratio"⟩

/-- C8: round-trip of the spec-modelled codec — for every type in
{`int`, `float`, `[int]`, `[float]`} and the representative values
`0`, `-1`, `3.14`, `[1,2,3]`, `[0.0,-2.5]`, decoding a response that
echoes the value's textual form recovers the original typed value
exactly (floats as exact rationals, on which the 32-bit narrowing is the
identity). -/
theorem c8_roundtrip :
    decodeResponse "req1|dataref|response|int|0" = .ok ("req1", .int, .intV 0) ∧
    decodeResponse "req1|dataref|response|int|-1" = .ok ("req1", .int, .intV (-1)) ∧
    decodeResponse "req1|dataref|response|float|3.14"
      = .ok ("req1", .float, .floatV (mkRat 157 50)) ∧
    decodeResponse "req1|dataref|response|[int]|1,2,3"
      = .ok ("req1", .intArray, .intArrayV [1, 2, 3]) ∧
    decodeResponse "req1|dataref|response|[float]|0.0,-2.5"
      = .ok ("req1", .floatArray, .floatArrayV [0, mkRat (-5) 2]) := by
  decide

/-- C9: `SendAndRecv` returns either the failure result `nil` or exactly
the first `min(2048, size)` bytes of the received datagram — the prefix
fitting the 2048-byte receive buffer — and any longer payload is
truncated to 2048 bytes with no error reported. -/
theorem c9_sendAndRecv_truncates (c : UdpClient) (sendOk deadlineOk : Bool)
    (recv : Option (List Nat)) :
    UdpClient.SendAndRecv c sendOk deadlineOk recv = none ∨
    ∃ payload, recv = some payload ∧
      UdpClient.SendAndRecv c sendOk deadlineOk recv = some (payload.take 2048) ∧
      (payload.take 2048).length ≤ 2048 ∧
      payload.take 2048 ++ payload.drop 2048 = payload := by
  cases sendOk with
  | false => exact Or.inl rfl
  | true =>
    cases deadlineOk with
    | false => exact Or.inl rfl
    | true =>
      cases recv with
      | none => exact Or.inl rfl
      | some payload =>
        refine Or.inr ⟨payload, rfl, rfl, ?_, List.take_append_drop 2048 payload⟩
        simp [List.length_take]

/-- C10: when client creation fails, `NewUdpClient` returns `nil` rather
than an error value, `NewDataRefReader` wraps the `nil` client without
any check, and both subsequent reads dereference the nil pointer (a
panic) instead of returning a typed failure. -/
theorem c10_nil_client_fault (host : String) (port timeoutSecs : Int)
    (response : Option String) :
    NewUdpClient host port timeoutSecs .err = none ∧
    NewDataRefReader (NewUdpClient host port timeoutSecs .err) = ⟨none⟩ ∧
    DataRefReader.ReadAsFloat (NewDataRefReader (NewUdpClient host port timeoutSecs .err))
        response = .error .nilPointerDereference ∧
    DataRefReader.Read (NewDataRefReader (NewUdpClient host port timeoutSecs .err))
        response = .error .nilPointerDereference :=
  ⟨rfl, rfl, rfl, rfl⟩
